import Mathlib

/-!
Verification development for the agent orchestration core of bubbleAIv2.10.

The TypeScript source is shallowly embedded: every definition below is a
direct translation of a function or code path of the repository (file and
line references in the doc comments).  Streams, collaborator calls and the
upstream model are inputs of the embedding (`AgentEnv`), so a theorem
quantified over the environment speaks about every run of the code.
-/

namespace Bubble

/-! ## Character and string helpers (JavaScript semantics) -/

/-- JavaScript regex `\s` whitespace class, restricted to the ASCII range
(space, tab, line feed, carriage return, vertical tab, form feed). -/
def jsWs (c : Char) : Bool :=
  c = ' ' || c = '\t' || c = '\n' || c = '\x0d' || c = '\x0b' || c = '\x0c'

/-- Whether a JavaScript regex `.` (no `s` flag) matches the character:
everything except line terminators. -/
def dotOk (c : Char) : Bool :=
  !(c = '\n' || c = '\x0d')

/-- Case-insensitive prefix test on character lists (JS regex `i` flag). -/
def ciPrefixOf : List Char → List Char → Bool
  | [], _ => true
  | _ :: _, [] => false
  | p :: ps, c :: cs => (p.toLower = c.toLower) && ciPrefixOf ps cs

/-- Case-insensitive substring occurrence test. -/
def ciContains (pat : List Char) : List Char → Bool
  | [] => ciPrefixOf pat []
  | c :: rest => ciPrefixOf pat (c :: rest) || ciContains pat rest

/-- Case-sensitive substring occurrence test on character lists. -/
def csContains (pat : List Char) : List Char → Bool
  | [] => pat.isPrefixOf []
  | c :: rest => pat.isPrefixOf (c :: rest) || csContains pat rest

/-- Case-sensitive substring test, JavaScript `String.prototype.includes`. -/
def strContains (s pat : String) : Bool :=
  csContains pat.data s.data

/-- JavaScript `String.prototype.trim` on a character list. -/
def trimChars (cs : List Char) : List Char :=
  ((cs.dropWhile jsWs).reverse.dropWhile jsWs).reverse

/-- JavaScript `String.prototype.trim`. -/
def trimS (s : String) : String :=
  ⟨trimChars s.data⟩

/-! ## Retrying stream client

`generateContentStreamWithRetry` (src/unnamed/part_000 lines 20-45) wraps the
upstream stream call in a bounded retry loop.  The upstream call is an input:
`call attempt` is what `ai.models.generateContentStream` does on the
(0-indexed) `attempt`-th try. -/

/-- A JavaScript error value as observed by the retry wrapper: an optional
numeric `status` field and an optional `message` string (`none` models a
thrown value that is not an `Error` or has no message). -/
structure GError where
  status : Option Nat
  message : Option String
deriving DecidableEq

/-- Lines 30-32: `error.status === 429 || error.message.includes('429') ||
error.message.includes('quota')` (with JS truthiness guarding `message`). -/
def isQuotaError (e : GError) : Bool :=
  e.status = some 429 ||
    (match e.message with
     | some m => strContains m "429" || strContains m "quota"
     | none => false)

/-- Line 35: `Math.pow(2, attempt) * 2000 + 1000`. -/
def retryDelay (attempt : Nat) : Nat :=
  2 ^ attempt * 2000 + 1000

/-- The terminal outcome of the retry wrapper. -/
inductive RetryOutcome (α : Type) where
  /-- The upstream call succeeded (line 28 `return`). -/
  | ok : α → RetryOutcome α
  /-- Line 40 `throw error`: the original upstream error is rethrown. -/
  | err : GError → RetryOutcome α
  /-- Line 44 `throw new Error("Max retries exceeded")` after the loop. -/
  | maxRetries : RetryOutcome α
deriving DecidableEq

/-- The observable behaviour of one run of the retry wrapper: its outcome,
how many attempts (loop iterations) were performed, and the sleep durations
in order. -/
structure RetryTrace (α : Type) where
  outcome : RetryOutcome α
  attempts : Nat
  delays : List Nat
deriving DecidableEq

/-- The `for (let attempt = 0; attempt <= retries; attempt++)` loop of lines
26-43.  `fuel` only bounds the recursion; the entry point passes
`retries + 2`, more than the loop can ever iterate, so the fuel-exhausted
branch is never taken and the structure is exactly the source loop with its
post-loop `throw` (line 44). -/
def retryAux (call : Nat → Except GError α) (retries : Nat) :
    Nat → Nat → Nat → List Nat → RetryTrace α
  | 0, _, n, ds => ⟨.maxRetries, n, ds⟩
  | fuel + 1, attempt, n, ds =>
    if attempt ≤ retries then
      match call attempt with
      | .ok a => ⟨.ok a, n + 1, ds⟩
      | .error e =>
        if isQuotaError e ∧ attempt < retries then
          retryAux call retries fuel (attempt + 1) (n + 1) (ds ++ [retryDelay attempt])
        else ⟨.err e, n + 1, ds⟩
    else ⟨.maxRetries, n, ds⟩

/-- Lines 20-45: the retry wrapper, default ceiling `retries = 3`. -/
def generateContentStreamWithRetry (call : Nat → Except GError α) (retries : Nat) :
    RetryTrace α :=
  retryAux call retries (retries + 2) 0 0 []

/-! ## Redirect detection (tag protocol, SIMPLE handler)

Models of the JavaScript regex matches of src/unnamed/part_000 lines 267-273.
All of them have the shape `<TAG>(.*?)</TAG>` (case-sensitive, `.` not
matching line terminators, lazy payload, first match wins) except the
`<THINK>` open-tag fallback and the case-insensitive
`<SEARCH>deep\s+(.*?)</SEARCH>` alternative of `deepMatch`. -/

/-- Lazy payload scan: the shortest run of `.`-matchable characters after
which `closeT` occurs, or `none` when the close tag is not reachable. -/
def findPayload (closeT : List Char) : List Char → Option (List Char)
  | [] => if closeT.isPrefixOf [] then some [] else none
  | c :: rest =>
    if closeT.isPrefixOf (c :: rest) then some []
    else if dotOk c then (findPayload closeT rest).map (fun p => c :: p)
    else none

/-- First match of `openT(.*?)closeT` (case-sensitive): the regex engine
scans positions left to right and at each open-tag position takes the lazy
(shortest) payload. -/
def tagMatch (openT closeT : List Char) : List Char → Option (List Char)
  | [] => none
  | c :: rest =>
    if openT.isPrefixOf (c :: rest) then
      match findPayload closeT (List.drop openT.length (c :: rest)) with
      | some p => some p
      | none => tagMatch openT closeT rest
    else tagMatch openT closeT rest

/-- String-level wrapper of `tagMatch`. -/
def tagMatchS (openT closeT s : String) : Option String :=
  (tagMatch openT.data closeT.data s.data).map (fun p => ⟨p⟩)

/-- Case-insensitive lazy payload scan (for the `i`-flagged regexes). -/
def findPayloadCI (closeT : List Char) : List Char → Option (List Char)
  | [] => if ciPrefixOf closeT [] then some [] else none
  | c :: rest =>
    if ciPrefixOf closeT (c :: rest) then some []
    else if dotOk c then (findPayloadCI closeT rest).map (fun p => c :: p)
    else none

/-- Backtracking of the greedy `\s+` of `<SEARCH>deep\s+(.*?)</SEARCH>`:
`ws` is the maximal whitespace run after `deep`, `rest` what follows it, and
`k` counts down the whitespace characters consumed by `\s+` (the engine
tries the longest consumption first; at least one is required). -/
def deepAltPayload (closeT ws rest : List Char) : Nat → Option (List Char)
  | 0 => none
  | k + 1 =>
    match findPayloadCI closeT (ws.drop (k + 1) ++ rest) with
    | some p => some p
    | none => deepAltPayload closeT ws rest k

/-- First match of the case-insensitive `<SEARCH>deep\s+(.*?)</SEARCH>`
alternative of `deepMatch` (line 268). -/
def deepSearchAlt : List Char → Option (List Char)
  | [] => none
  | c :: rest =>
    if ciPrefixOf "<SEARCH>deep".data (c :: rest) then
      let afterDeep := List.drop 12 (c :: rest)
      let ws := afterDeep.takeWhile jsWs
      let tail := afterDeep.dropWhile jsWs
      match deepAltPayload "</SEARCH>".data ws tail ws.length with
      | some p => some p
      | none => deepSearchAlt rest
    else deepSearchAlt rest

/-- Line 267: `generatedThisLoop.match(/<SEARCH>(.*?)<\/SEARCH>/)`. -/
def searchMatch (g : String) : Option String :=
  tagMatchS "<SEARCH>" "</SEARCH>" g

/-- Line 268: `<DEEP>(.*?)</DEEP>` or the case-insensitive
`<SEARCH>deep\s+(.*?)</SEARCH>` alternative. -/
def deepMatch (g : String) : Option String :=
  match tagMatchS "<DEEP>" "</DEEP>" g with
  | some p => some p
  | none => (deepSearchAlt g.data).map (fun p => ⟨p⟩)

/-- Line 269: `<THINK>(.*?)</THINK>` or the bare open tag `<THINK>`.
`some (some p)` is a closed match with captured payload `p`; `some none` is
the open-tag fallback (no capture group, `thinkMatch[1]` undefined). -/
def thinkMatch (g : String) : Option (Option String) :=
  match tagMatchS "<THINK>" "</THINK>" g with
  | some p => some (some p)
  | none => if csContains "<THINK>".data g.data then some none else none

/-- Line 270. -/
def imageMatch (g : String) : Option String :=
  tagMatchS "<IMAGE>" "</IMAGE>" g

/-- Line 271. -/
def projectMatch (g : String) : Option String :=
  tagMatchS "<PROJECT>" "</PROJECT>" g

/-- Line 272. -/
def canvasMatch (g : String) : Option String :=
  tagMatchS "<CANVAS>" "</CANVAS>" g

/-- Line 273. -/
def studyMatch (g : String) : Option String :=
  tagMatchS "<STUDY>" "</STUDY>" g

/-- The routed actions (RouterAction of services/semanticRouter). -/
inductive RouterAction where
  | SEARCH | DEEP_SEARCH | THINK | IMAGE | CANVAS | PROJECT | STUDY | SIMPLE
deriving DecidableEq

/-- Line 277: `thinkMatch[1] ? thinkMatch[1].trim() : prompt` — JS
truthiness of the captured group (undefined or empty string falls back to
the turn's original prompt), then `trim`. -/
def thinkPrompt (cap : Option String) (origPrompt : String) : String :=
  match cap with
  | some p => if p = "" then origPrompt else trimS p
  | none => origPrompt

/-- Lines 267-281: redirect detection on the SIMPLE handler's freshly
generated text.  Returns the redirect target and the next prompt, mirroring
the if-chain order `deep, search, think, image, project, canvas, study`
(each branch does `continue`, so the first successful match wins). -/
def detectRedirect (g origPrompt : String) : Option (RouterAction × String) :=
  match deepMatch g with
  | some p => some (.DEEP_SEARCH, p)
  | none =>
    match searchMatch g with
    | some p => some (.SEARCH, p)
    | none =>
      match thinkMatch g with
      | some cap => some (.THINK, thinkPrompt cap origPrompt)
      | none =>
        match imageMatch g with
        | some p => some (.IMAGE, p)
        | none =>
          match projectMatch g with
          | some p => some (.PROJECT, p)
          | none =>
            match canvasMatch g with
            | some p => some (.CANVAS, p)
            | none =>
              match studyMatch g with
              | some p => some (.STUDY, p)
              | none => none

/-! ## Display-time extraction

`parseMessageContent` (src/components/chat/ChatMessage.tsx lines 260-289).
Its regexes use `[\s\S]` (any character) and the `gi` flags, so the models
here are case-insensitive and place no restriction on payload characters. -/

/-- The remainder after the first case-insensitive occurrence of `closeT`
(the lazy `[\s\S]*?` before a close tag), or `none` when absent. -/
def dropUntilClose (closeT : List Char) : List Char → Option (List Char)
  | [] => none
  | c :: rest =>
    if ciPrefixOf closeT (c :: rest) then some ((c :: rest).drop closeT.length)
    else dropUntilClose closeT rest

/-- One `replace(/openT[\s\S]*?closeT/gi, '')` pass: every non-overlapping
match removed, scanning left to right and resuming after each removal.
`fuel` only bounds the recursion (each removal strictly shortens the list,
so the wrapper's `cs.length` is enough and the fuel branch is unreachable). -/
def stripClosed (openT closeT : List Char) : Nat → List Char → List Char
  | _, [] => []
  | 0, cs => cs
  | fuel + 1, c :: rest =>
    if ciPrefixOf openT (c :: rest) then
      match dropUntilClose closeT (List.drop openT.length (c :: rest)) with
      | some rest2 => stripClosed openT closeT fuel rest2
      | none => c :: stripClosed openT closeT fuel rest
    else c :: stripClosed openT closeT fuel rest

/-- String entry point of `stripClosed`. -/
def stripClosedS (openT closeT : String) (cs : List Char) : List Char :=
  stripClosed openT.data closeT.data cs.length cs

/-- One open-tag removal pass (the `gi` replace with no close tag, lines
277 and 279): everything from the first
case-insensitive occurrence of the open tag to the end is removed. -/
def stripOpenTag (openT : List Char) : List Char → List Char
  | [] => []
  | c :: rest =>
    if ciPrefixOf openT (c :: rest) then []
    else c :: stripOpenTag openT rest

/-- String entry point of `stripOpenTag`. -/
def stripOpenTagS (openT : String) (cs : List Char) : List Char :=
  stripOpenTag openT.data cs

/-- Payload of `openT([\s\S]*?)(?:closeT|$)`: everything up to the first
case-insensitive occurrence of `closeT`, or to the end of the text. -/
def takeUntilClose (closeT : List Char) : List Char → List Char
  | [] => []
  | c :: rest =>
    if ciPrefixOf closeT (c :: rest) then []
    else c :: takeUntilClose closeT rest

/-- First match of `openT([\s\S]*?)(?:closeT|$)` (lines 264 and 267): at the
first case-insensitive occurrence of the open tag, capture up to the close
tag or the end of the text. -/
def extractBlock (openT closeT : List Char) : List Char → Option (List Char)
  | [] => none
  | c :: rest =>
    if ciPrefixOf openT (c :: rest) then
      some (takeUntilClose closeT (List.drop openT.length (c :: rest)))
    else extractBlock openT closeT rest

/-- JS regex `\w`. -/
def wordChar (c : Char) : Bool :=
  ('a' ≤ c && c ≤ 'z') || ('A' ≤ c && c ≤ 'Z') || ('0' ≤ c && c ≤ '9') || c = '_'

/-- Line 272, first replace: `^` ++ three backticks ++ `\w*\n?`. -/
def stripLeadFence (cs : List Char) : List Char :=
  match cs with
  | '`' :: '`' :: '`' :: rest =>
    match rest.dropWhile wordChar with
    | '\n' :: r => r
    | r => r
  | _ => cs

/-- Line 272, second replace: a trailing fence of three backticks. -/
def stripTrailFence (cs : List Char) : List Char :=
  if ['`', '`', '`'].isSuffixOf cs then cs.dropLast.dropLast.dropLast else cs

/-- Lines 271-273: `canvas.replace(/^```\w*\n?/, '').replace(/```$/, '').trim()`
applied only when the extracted canvas text is truthy. -/
def canvasPost (c : Option (List Char)) : Option String :=
  match c with
  | none => none
  | some cs =>
    let t := trimChars cs
    if t = [] then some ⟨t⟩
    else some ⟨trimChars (stripTrailFence (stripLeadFence t))⟩

/-- Result record of `parseMessageContent`. -/
structure ParsedContent where
  thinking : Option String
  canvas : Option String
  clean : String
deriving DecidableEq

/-- Lines 275-286: the sequential tag-removal chain building `clean`. -/
def cleanText (cs : List Char) : List Char :=
  trimChars <|
    stripClosedS "<DEEP>" "</DEEP>" <|
    stripClosedS "<STUDY>" "</STUDY>" <|
    stripClosedS "<PROJECT>" "</PROJECT>" <|
    stripClosedS "<SEARCH>" "</SEARCH>" <|
    stripClosedS "<IMAGE>" "</IMAGE>" <|
    stripClosedS "<MEMORY>" "</MEMORY>" <|
    stripOpenTagS "<CANVAS>" <|
    stripClosedS "<CANVAS>" "</CANVAS>" <|
    stripOpenTagS "<THINK>" <|
    stripClosedS "<THINK>" "</THINK>" cs

/-- src/components/chat/ChatMessage.tsx lines 260-289. -/
def parseMessageContent (content : String) : ParsedContent :=
  if content = "" then ⟨none, none, ""⟩
  else
    { thinking := (extractBlock "<THINK>".data "</THINK>".data content.data).map
        (fun p => ⟨trimChars p⟩)
      canvas := canvasPost (extractBlock "<CANVAS>".data "</CANVAS>".data content.data)
      clean := ⟨cleanText content.data⟩ }

/-! ## Orchestration core

`runAutonomousAgent` (src/unnamed/part_000 lines 47-295).  The
collaborators (router, memory store, upstream streams, research, canvas and
image services) are inputs of the embedding, collected in `AgentEnv`; each
stream-producing call is a function of the retry attempt number, exactly
what the retry wrapper sees.  Grounding entries are opaque and modelled as
strings. -/

/-- A stream chunk: optional text and, when `candidates[0].groundingMetadata
.groundingChunks` is present, its list of grounding entries (`some []` is a
present but empty array, which is truthy in JS). -/
structure Chunk where
  text : Option String
  grounding : Option (List String)
deriving DecidableEq

/-- JS truthiness of `chunk.text`. -/
def chunkTextTruthy (ch : Chunk) : Bool :=
  match ch.text with
  | some t => !(t = "")
  | none => false

/-- A pending message of the returned `AgentExecutionResult`. -/
structure Message where
  project_id : String
  chat_id : String
  sender : String
  text : String
  image_base64 : Option String
  groundingMetadata : Option (List String)
deriving DecidableEq

/-- The terminal result of a turn. -/
structure AgentExecutionResult where
  messages : List Message
deriving DecidableEq

/-- The parts of `AgentInput` the orchestration core's observable behaviour
depends on. -/
structure AgentInput where
  prompt : String
  projectId : String
  chatId : String
deriving DecidableEq

/-- The external collaborators of one turn.  Functions of type
`Nat → Except GError (List Chunk)` give the outcome of the corresponding
upstream stream call on each retry attempt. -/
structure AgentEnv where
  /-- `router.route` (line 57): initial action and `parameters?.prompt`. -/
  route : Except GError (RouterAction × Option String)
  /-- `memory.getContext` (line 60); its content only feeds prompts. -/
  memory : Except GError Unit
  /-- The SEARCH handler's stream call (lines 83-90). -/
  searchCall : Nat → Except GError (List Chunk)
  /-- The THINK handler's stream call (lines 130-137). -/
  thinkCall : Nat → Except GError (List Chunk)
  /-- The STUDY handler's stream call (lines 208-211). -/
  studyCall : Nat → Except GError (List Chunk)
  /-- The SIMPLE handler's stream call (lines 244-248). -/
  simpleCall : Nat → Except GError (List Chunk)
  /-- `researchService.deepResearch` (line 108): answer and sources. -/
  deepResearch : Except GError (String × List String)
  /-- `generateImage` (line 154), a function of the image prompt. -/
  generateImage : String → Except GError String
  /-- The PROJECT handler's one-shot `generateContent` text (line 194). -/
  projectCall : Except GError String
  /-- `runCanvasAgent` (line 175): `canvasResult.messages[0].text`
  (`none` models a missing or undefined text field). -/
  canvasCall : Except GError (Option String)

/-- `await generateContentStreamWithRetry(ai, params, 3, ...)` inside a
handler: the wrapper's outcome as the handler observes it (a stream or a
thrown error). -/
def runRetry (call : Nat → Except GError (List Chunk)) : Except GError (List Chunk) :=
  match (generateContentStreamWithRetry call 3).outcome with
  | .ok chunks => .ok chunks
  | .err e => .error e
  | .maxRetries => .error ⟨none, some "Max retries exceeded"⟩

/-- The SEARCH handler's chunk loop (lines 92-102): text appended when
truthy; grounding entries appended for every chunk carrying them.  State is
`(finalResponseText, metadataPayload.groundingMetadata)`. -/
def foldSearchChunk (st : String × Option (List String)) (ch : Chunk) :
    String × Option (List String) :=
  let t := if chunkTextTruthy ch then st.1 ++ (ch.text.getD "") else st.1
  let g := match ch.grounding with
    | some gs => some ((st.2.getD []) ++ gs)
    | none => st.2
  (t, g)

/-- The THINK and STUDY handlers' chunk loops (lines 139-144, 213-218):
text only. -/
def foldTextChunk (acc : String) (ch : Chunk) : String :=
  if chunkTextTruthy ch then acc ++ (ch.text.getD "") else acc

/-- The SIMPLE handler's chunk loop (lines 252-264): `generatedThisLoop`
and `finalResponseText` appended, and — only inside the truthy-text branch —
grounding entries appended.  State is
`(generatedThisLoop, finalResponseText, groundingMetadata)`. -/
def foldSimpleChunk (st : String × String × Option (List String)) (ch : Chunk) :
    String × String × Option (List String) :=
  if chunkTextTruthy ch then
    let t := ch.text.getD ""
    let g := match ch.grounding with
      | some gs => some ((st.2.2.getD []) ++ gs)
      | none => st.2.2
    (st.1 ++ t, st.2.1 ++ t, g)
  else st

/-- The loop-carried state of the while loop (lines 67-74). -/
structure LoopSt where
  finalResponseText : String
  grounding : Option (List String)
  currentAction : RouterAction
  currentPrompt : String
  /-- `routing.parameters?.prompt` (read at line 152, overwritten at 278). -/
  paramPrompt : Option String
deriving DecidableEq

/-- One observable loop-iteration entry: the action dispatched on, and the
prompt and accumulated text at entry. -/
structure TraceEntry where
  action : RouterAction
  prompt : String
  text : String
deriving DecidableEq

/-- The observable behaviour of the loop: its outcome (a terminal result or
a thrown error), the number of executed iterations, and the per-iteration
entry trace. -/
structure LoopOut where
  result : Except GError AgentExecutionResult
  iters : Nat
  trace : List TraceEntry

instance : DecidableEq (Except GError AgentExecutionResult) := fun a b =>
  match a, b with
  | .ok x, .ok y => decidable_of_iff (x = y) (by simp)
  | .error e, .error f => decidable_of_iff (e = f) (by simp)
  | .ok _, .error _ => isFalse (by simp)
  | .error _, .ok _ => isFalse (by simp)

/-- The uniform return shape of lines 103, 114, 145, 155-164, 169, 183-189,
203, 219, 283 and 288: a single `ai` message for the submitted turn. -/
def mkMsg (inp : AgentInput) (text : String) (img : Option String)
    (gm : Option (List String)) : Message :=
  { project_id := inp.projectId, chat_id := inp.chatId, sender := "ai",
    text := text, image_base64 := img, groundingMetadata := gm }

/-- The `while (loopCount < MAX_LOOPS)` loop, lines 75-288.  `fuel` is the
remaining iteration budget (`MAX_LOOPS - loopCount`); the fuel-exhausted
case is the fall-through return of line 288. -/
def loopRun (inp : AgentInput) (env : AgentEnv) : Nat → LoopSt → LoopOut
  | 0, st =>
    ⟨.ok ⟨[mkMsg inp st.finalResponseText none st.grounding]⟩, 0, []⟩
  | fuel + 1, st =>
    let entry : TraceEntry := ⟨st.currentAction, st.currentPrompt, st.finalResponseText⟩
    match st.currentAction with
    | .SEARCH =>
      match runRetry env.searchCall with
      | .error e => ⟨.error e, 1, [entry]⟩
      | .ok chunks =>
        let s := chunks.foldl foldSearchChunk (st.finalResponseText, st.grounding)
        ⟨.ok ⟨[mkMsg inp s.1 none s.2]⟩, 1, [entry]⟩
    | .DEEP_SEARCH =>
      match env.deepResearch with
      | .error e => ⟨.error e, 1, [entry]⟩
      | .ok res =>
        let researchText := res.1 ++ "\n\n**Sources:**\n" ++ String.intercalate "\n" res.2
        ⟨.ok ⟨[mkMsg inp (st.finalResponseText ++ "\n\n" ++ researchText) none st.grounding]⟩,
          1, [entry]⟩
    | .THINK =>
      match runRetry env.thinkCall with
      | .error e => ⟨.error e, 1, [entry]⟩
      | .ok chunks =>
        let t := chunks.foldl foldTextChunk st.finalResponseText
        ⟨.ok ⟨[mkMsg inp t none st.grounding]⟩, 1, [entry]⟩
    | .IMAGE =>
      let imagePrompt := match st.paramPrompt with
        | some p => if p = "" then st.currentPrompt else p
        | none => st.currentPrompt
      match env.generateImage imagePrompt with
      | .ok b =>
        ⟨.ok ⟨[mkMsg inp st.finalResponseText (some b) st.grounding]⟩, 1, [entry]⟩
      | .error e =>
        let errorMsg := "\n\n(Image generation failed: " ++ (e.message.getD "Unknown error") ++ ")"
        ⟨.ok ⟨[mkMsg inp (st.finalResponseText ++ errorMsg) none st.grounding]⟩, 1, [entry]⟩
    | .CANVAS =>
      match env.canvasCall with
      | .error e => ⟨.error e, 1, [entry]⟩
      | .ok t =>
        ⟨.ok ⟨[mkMsg inp (t.getD "") none st.grounding]⟩, 1, [entry]⟩
    | .PROJECT =>
      match env.projectCall with
      | .error e => ⟨.error e, 1, [entry]⟩
      | .ok rtext =>
        let projectMsg := "\nI've designed the project structure based on your request.\n\n"
          ++ rtext ++ "\n\n(Switch to Co-Creator mode to fully hydrate and edit these files.)"
        ⟨.ok ⟨[mkMsg inp (st.finalResponseText ++ projectMsg) none st.grounding]⟩, 1, [entry]⟩
    | .STUDY =>
      match runRetry env.studyCall with
      | .error e => ⟨.error e, 1, [entry]⟩
      | .ok chunks =>
        let t := chunks.foldl foldTextChunk st.finalResponseText
        ⟨.ok ⟨[mkMsg inp t none st.grounding]⟩, 1, [entry]⟩
    | .SIMPLE =>
      match runRetry env.simpleCall with
      | .error e => ⟨.error e, 1, [entry]⟩
      | .ok chunks =>
        let s := chunks.foldl foldSimpleChunk ("", st.finalResponseText, st.grounding)
        match detectRedirect s.1 inp.prompt with
        | some act =>
          let o := loopRun inp env fuel
            { finalResponseText := s.2.1, grounding := s.2.2,
              currentAction := act.1, currentPrompt := act.2,
              paramPrompt := if act.1 = .IMAGE then some act.2 else st.paramPrompt }
          ⟨o.result, o.iters + 1, entry :: o.trace⟩
        | none => ⟨.ok ⟨[mkMsg inp s.2.1 none s.2.2]⟩, 1, [entry]⟩

/-- Line 73. -/
def MAX_LOOPS : Nat := 2

/-- The body of the `try` block (lines 50-288): route, gather context, run
the loop. -/
def runAgentCoreT (inp : AgentInput) (env : AgentEnv) : LoopOut :=
  match env.route with
  | .error e => ⟨.error e, 0, []⟩
  | .ok routing =>
    match env.memory with
    | .error e => ⟨.error e, 0, []⟩
    | .ok _ =>
      loopRun inp env MAX_LOOPS
        { finalResponseText := "", grounding := none,
          currentAction := routing.1, currentPrompt := inp.prompt,
          paramPrompt := routing.2 }

/-- Lines 47-295: the whole entry point, including the top-level catch
(lines 290-294).  `friendly` is `getUserFriendlyError` of src/errorUtils,
an arbitrary error-to-text translation. -/
def runAutonomousAgent (friendly : GError → String) (inp : AgentInput)
    (env : AgentEnv) : AgentExecutionResult :=
  match (runAgentCoreT inp env).result with
  | .ok r => r
  | .error e =>
    ⟨[{ project_id := inp.projectId, chat_id := inp.chatId, sender := "ai",
        text := "An error occurred: " ++ friendly e,
        image_base64 := none, groundingMetadata := none }]⟩

/-! ## Concrete fixtures

Closed environments used by counterexamples and witnesses. -/

/-- A turn submitted for project `proj1`, chat `chat1`. -/
def inpX : AgentInput := ⟨"hi there", "proj1", "chat1"⟩

/-- An upstream stream call that succeeds on every attempt with `cs`. -/
def okStream (cs : List Chunk) : Nat → Except GError (List Chunk) :=
  fun _ => .ok cs

/-- A benign environment: SIMPLE route, empty streams, all collaborators
succeed. -/
def baseEnv : AgentEnv where
  route := .ok (.SIMPLE, none)
  memory := .ok ()
  searchCall := okStream []
  thinkCall := okStream []
  studyCall := okStream []
  simpleCall := okStream []
  deepResearch := .ok ("", [])
  generateImage := fun _ => .ok "IMG"
  projectCall := .ok "PJ"
  canvasCall := .ok (some "CODE")

/-- A quota-class error: HTTP status 429 with a quota message. -/
def qe : GError := ⟨some 429, some "quota"⟩

/-- An upstream call failing with `qe` on every attempt. -/
def qcall : Nat → Except GError Unit := fun _ => .error qe

/-- SIMPLE output ending in a CANVAS marker; canvas collaborator answers
with fresh text (`CODE`). -/
def env3 : AgentEnv :=
  { baseEnv with
    simpleCall := okStream [⟨some "Hello", none⟩, ⟨some "<CANVAS>make app</CANVAS>", none⟩] }

/-- SIMPLE output carrying a SEARCH marker; the search stream then answers. -/
def env5 : AgentEnv :=
  { baseEnv with
    simpleCall := okStream [⟨some "Let me check<SEARCH>weather in Tokyo</SEARCH>", none⟩]
    searchCall := okStream [⟨some "Sunny", some ["src1"]⟩] }

/-- The router itself fails. -/
def env6 : AgentEnv :=
  { baseEnv with route := .error ⟨some 500, some "backend down"⟩ }

/-- Direct IMAGE route with parameter prompt `a cat`; generator succeeds. -/
def env8ok : AgentEnv :=
  { baseEnv with route := .ok (.IMAGE, some "a cat") }

/-- Direct IMAGE route; the generator raises `Error("rate limited")`. -/
def env8err : AgentEnv :=
  { baseEnv with
    route := .ok (.IMAGE, some "a cat")
    generateImage := fun _ => .error ⟨none, some "rate limited"⟩ }

/-- SEARCH route; the single stream chunk has grounding but no text. -/
def env9s : AgentEnv :=
  { baseEnv with
    route := .ok (.SEARCH, none)
    searchCall := okStream [⟨none, some ["g1"]⟩] }

/-- SIMPLE route; the single stream chunk has grounding but no text. -/
def env9p : AgentEnv :=
  { baseEnv with simpleCall := okStream [⟨none, some ["g1"]⟩] }

/-- A fixed error-to-text translation for closed computations. -/
def friendlyX : GError → String := fun e => e.message.getD "?"

/-- The non-idempotence seed for display-time extraction: removing the DEEP
marker splices the surrounding text into a THINK marker. -/
def spliceInput : String := "<TH<DEEP>a</DEEP>INK>hello"

/-- Grounding entries of a chunk (`groundingChunks` or nothing). -/
def groundOf (ch : Chunk) : List String :=
  ch.grounding.getD []

/-- No opening marker of any of the eight display-time tag families occurs
(case-insensitively) in the text. -/
def noMarkerTokens (s : String) : Bool :=
  !(ciContains "<THINK>".data s.data || ciContains "<CANVAS>".data s.data ||
    ciContains "<MEMORY>".data s.data || ciContains "<IMAGE>".data s.data ||
    ciContains "<SEARCH>".data s.data || ciContains "<PROJECT>".data s.data ||
    ciContains "<STUDY>".data s.data || ciContains "<DEEP>".data s.data)

/-! ## Retry wrapper lemmas -/

theorem retryDelay_lt {a b : Nat} (h : a < b) : retryDelay a < retryDelay b := by
  have hp : 2 ^ a < 2 ^ b := Nat.pow_lt_pow_right (by norm_num) h
  have : 2 ^ a * 2000 < 2 ^ b * 2000 :=
    Nat.mul_lt_mul_of_lt_of_le hp (le_refl 2000) (by norm_num)
  unfold retryDelay
  omega

theorem retryAux_all_quota {α : Type} (call : Nat → Except GError α) (e : GError)
    (retries : Nat) (hc : ∀ k, call k = .error e) (hq : isQuotaError e = true) :
    ∀ fuel attempt n ds, attempt ≤ retries → retries - attempt < fuel →
      retryAux call retries fuel attempt n ds =
        ⟨.err e, n + (retries - attempt) + 1,
          ds ++ (List.range' attempt (retries - attempt)).map retryDelay⟩ := by
  intro fuel
  induction fuel with
  | zero => intro attempt n ds h1 h2; omega
  | succ f ih =>
    intro attempt n ds h1 h2
    by_cases hlt : attempt < retries
    · have hstep : retryAux call retries (f + 1) attempt n ds =
          retryAux call retries f (attempt + 1) (n + 1) (ds ++ [retryDelay attempt]) := by
        simp [retryAux, h1, hc attempt, hq, hlt]
      rw [hstep, ih (attempt + 1) (n + 1) _ (by omega) (by omega)]
      have hr : retries - attempt = (retries - (attempt + 1)) + 1 := by omega
      congr 1
      · omega
      · rw [hr, List.range'_succ]
        simp [List.append_assoc]
    · have h0 : retries - attempt = 0 := by omega
      simp [retryAux, h1, hc attempt, hq, hlt, h0]

/-! ## Orchestration loop lemmas -/

theorem loopRun_iters_le (inp : AgentInput) (env : AgentEnv) :
    ∀ fuel st, (loopRun inp env fuel st).iters ≤ fuel := by
  intro fuel
  induction fuel with
  | zero => intro st; simp [loopRun]
  | succ f ih =>
    intro st
    simp only [loopRun]
    split
    all_goals (try (split <;> simp))
    split
    · simp
    · split
      · exact Nat.succ_le_succ (ih _)
      · simp

/-! ## Claim C1 -/

/-- C1 (corrected claim): when every attempt fails with a quota-class
error, the wrapper performs exactly `retries + 1` attempts and sleeps
`2^attempt * 2000 + 1000` ms before each retry (3000 ms, 5000 ms, 9000 ms
for the default ceiling 3, strictly increasing), but the final failure is
the rethrown original quota error of the last attempt — the
`Max retries exceeded` throw after the loop is unreachable. -/
theorem C1_retry_all_quota {α : Type} (call : Nat → Except GError α) (e : GError)
    (retries : Nat) (hc : ∀ k, call k = .error e) (hq : isQuotaError e = true) :
    generateContentStreamWithRetry call retries =
        ⟨.err e, retries + 1, (List.range retries).map retryDelay⟩
      ∧ ((List.range retries).map retryDelay).Pairwise (· < ·)
      ∧ (List.range 3).map retryDelay = [3000, 5000, 9000]
      ∧ (generateContentStreamWithRetry call retries).outcome ≠ .maxRetries := by
  have h := retryAux_all_quota call e retries hc hq (retries + 2) 0 0 [] (by omega) (by omega)
  have h1 : generateContentStreamWithRetry call retries =
      ⟨.err e, retries + 1, (List.range retries).map retryDelay⟩ := by
    rw [generateContentStreamWithRetry, h]
    simp [List.range_eq_range']
  refine ⟨h1, ?_, by decide, ?_⟩
  · exact List.Pairwise.map _ (fun a b hab => retryDelay_lt hab) (List.pairwise_lt_range retries)
  · rw [h1]
    simp

/-- C1 counterexample: with every attempt failing with the quota error
`qe` and the default ceiling 3, the wrapper performs 4 attempts with the
claimed delays, but the final failure is the original error `qe`, not the
`Max retries exceeded` failure the claim predicts. -/
theorem C1_counterexample :
    isQuotaError qe = true
      ∧ (generateContentStreamWithRetry qcall 3).attempts = 3 + 1
      ∧ (generateContentStreamWithRetry qcall 3).delays = [3000, 5000, 9000]
      ∧ (generateContentStreamWithRetry qcall 3).outcome = .err qe
      ∧ (generateContentStreamWithRetry qcall 3).outcome ≠ .maxRetries :=
  ⟨by decide, by decide, by decide, by decide, by decide⟩

/-- C1 witness: the corrected claim evaluated on the all-quota call `qcall`
with the default ceiling 3. -/
theorem C1_witness :
    generateContentStreamWithRetry qcall 3 =
        ⟨.err qe, 3 + 1, (List.range 3).map retryDelay⟩
      ∧ ((List.range 3).map retryDelay).Pairwise (· < ·)
      ∧ (List.range 3).map retryDelay = [3000, 5000, 9000]
      ∧ (generateContentStreamWithRetry qcall 3).outcome ≠ .maxRetries :=
  C1_retry_all_quota qcall qe 3 (fun _ => rfl) (by decide)

/-! ## Claim C2 -/

/-- C2: the orchestration loop executes at most `MAX_LOOPS = 2` handler
iterations per turn, however many redirects the SIMPLE handler's output
requests; and when the iteration budget is exhausted without a terminal
handler result, the loop falls through and returns the text accumulated so
far as an ordinary result (line 288), not an error. -/
theorem C2_loop_bounded (inp : AgentInput) (env : AgentEnv) :
    (runAgentCoreT inp env).iters ≤ 2
      ∧ ∀ st, loopRun inp env 0 st =
          ⟨.ok ⟨[mkMsg inp st.finalResponseText none st.grounding]⟩, 0, []⟩ := by
  constructor
  · rw [runAgentCoreT]
    split
    · simp
    · split
      · simp
      · exact loopRun_iters_le inp env MAX_LOOPS _
  · intro st
    simp [loopRun]

/-! ## Chunk-fold lemmas -/

theorem foldSearch_text_pre (chunks : List Chunk) :
    ∀ p : String × Option (List String),
      p.1.data <+: ((chunks.foldl foldSearchChunk p).1).data := by
  induction chunks with
  | nil => intro p; simp
  | cons ch rest ih =>
    intro p
    refine List.IsPrefix.trans ?_ (ih (foldSearchChunk p ch))
    unfold foldSearchChunk
    by_cases h : chunkTextTruthy ch
    · simp [h, String.data_append]
    · simp [h]

theorem foldText_pre (chunks : List Chunk) :
    ∀ t0 : String, t0.data <+: (chunks.foldl foldTextChunk t0).data := by
  induction chunks with
  | nil => intro t0; simp
  | cons ch rest ih =>
    intro t0
    refine List.IsPrefix.trans ?_ (ih (foldTextChunk t0 ch))
    unfold foldTextChunk
    by_cases h : chunkTextTruthy ch
    · simp [h, String.data_append]
    · simp [h]

theorem foldSimple_text_pre (chunks : List Chunk) :
    ∀ p : String × String × Option (List String),
      p.2.1.data <+: ((chunks.foldl foldSimpleChunk p).2.1).data := by
  induction chunks with
  | nil => intro p; simp
  | cons ch rest ih =>
    intro p
    refine List.IsPrefix.trans ?_ (ih (foldSimpleChunk p ch))
    unfold foldSimpleChunk
    by_cases h : chunkTextTruthy ch
    · simp [h, String.data_append]
    · simp [h]

theorem foldSearch_grounding (chunks : List Chunk) :
    ∀ p : String × Option (List String),
      ((chunks.foldl foldSearchChunk p).2).getD [] =
        p.2.getD [] ++ (chunks.map groundOf).flatten := by
  induction chunks with
  | nil => intro p; simp
  | cons ch rest ih =>
    intro p
    rw [List.foldl_cons, ih (foldSearchChunk p ch)]
    unfold foldSearchChunk groundOf
    cases hg : ch.grounding with
    | some gs => simp [hg, List.append_assoc]
    | none => simp [hg]

theorem foldSimple_grounding (chunks : List Chunk) :
    ∀ p : String × String × Option (List String),
      ((chunks.foldl foldSimpleChunk p).2.2).getD [] =
        p.2.2.getD [] ++ ((chunks.filter chunkTextTruthy).map groundOf).flatten := by
  induction chunks with
  | nil => intro p; simp
  | cons ch rest ih =>
    intro p
    rw [List.foldl_cons, ih (foldSimpleChunk p ch)]
    by_cases h : chunkTextTruthy ch
    · unfold foldSimpleChunk groundOf
      cases hg : ch.grounding with
      | some gs => simp [hg, h, List.append_assoc]
      | none => simp [hg, h]
    · unfold foldSimpleChunk
      simp [h]

/-! ## Loop-trace lemmas -/

theorem loopRun_trace_head (inp : AgentInput) (env : AgentEnv) :
    ∀ fuel st e, (loopRun inp env fuel st).trace.head? = some e →
      e.text = st.finalResponseText := by
  intro fuel st e h
  cases fuel with
  | zero => simp [loopRun] at h
  | succ f =>
    simp only [loopRun] at h
    split at h <;> (try split at h) <;> (try split at h) <;>
      (simp at h; cases h; rfl)

theorem loopRun_chain (inp : AgentInput) (env : AgentEnv) :
    ∀ fuel st,
      List.Chain' (fun a b => a.text.data <+: b.text.data)
        (loopRun inp env fuel st).trace := by
  intro fuel
  induction fuel with
  | zero => intro st; simp [loopRun]
  | succ f ih =>
    intro st
    simp only [loopRun]
    split <;> (try split) <;> (try split) <;> simp
    case _ chunks hR s act hD =>
      rw [List.chain'_cons']
      refine ⟨?_, ih _⟩
      intro y hy
      have := loopRun_trace_head inp env f _ y hy
      rw [this]
      exact foldSimple_text_pre chunks ("", st.finalResponseText, st.grounding)

theorem loopRun_final_text (inp : AgentInput) (env : AgentEnv) :
    ∀ fuel st r m, (loopRun inp env fuel st).result = .ok r → m ∈ r.messages →
      st.finalResponseText.data <+: m.text.data
        ∨ ((∃ e ∈ (loopRun inp env fuel st).trace, e.action = .CANVAS)
            ∧ ∀ t, env.canvasCall = .ok t → m.text = t.getD "") := by
  intro fuel
  induction fuel with
  | zero =>
    intro st r m hr hm
    simp only [loopRun] at hr
    cases hr
    simp at hm
    subst hm
    exact Or.inl (by simp [mkMsg])
  | succ f ih =>
    intro st r m hr hm
    simp only [loopRun] at hr ⊢
    revert hr
    cases hA : st.currentAction <;> dsimp only <;> intro hr
    case SEARCH =>
      revert hr
      cases hR : runRetry env.searchCall <;> dsimp only <;> intro hr
      case error e => simp at hr
      case ok chunks =>
        simp only [Except.ok.injEq] at hr
        subst hr
        simp at hm
        subst hm
        exact Or.inl (by simpa [mkMsg] using
          foldSearch_text_pre chunks (st.finalResponseText, st.grounding))
    case DEEP_SEARCH =>
      revert hr
      cases hR : env.deepResearch <;> dsimp only <;> intro hr
      case error e => simp at hr
      case ok res =>
        simp only [Except.ok.injEq] at hr
        subst hr
        simp at hm
        subst hm
        refine Or.inl ?_
        simp only [mkMsg, String.data_append, List.append_assoc]
        exact List.prefix_append _ _
    case THINK =>
      revert hr
      cases hR : runRetry env.thinkCall <;> dsimp only <;> intro hr
      case error e => simp at hr
      case ok chunks =>
        simp only [Except.ok.injEq] at hr
        subst hr
        simp at hm
        subst hm
        exact Or.inl (by simpa [mkMsg] using foldText_pre chunks st.finalResponseText)
    case IMAGE =>
      revert hr
      cases hR : env.generateImage (match st.paramPrompt with
        | some p => if p = "" then st.currentPrompt else p
        | none => st.currentPrompt) <;> dsimp only <;> intro hr
      case ok b =>
        simp only [Except.ok.injEq] at hr
        subst hr
        simp at hm
        subst hm
        exact Or.inl (by simp [mkMsg])
      case error e =>
        simp only [Except.ok.injEq] at hr
        subst hr
        simp at hm
        subst hm
        refine Or.inl ?_
        simp only [mkMsg, String.data_append]
        exact List.prefix_append _ _
    case CANVAS =>
      revert hr
      cases hC : env.canvasCall <;> dsimp only <;> intro hr
      case error e => simp at hr
      case ok t0 =>
        simp only [Except.ok.injEq] at hr
        subst hr
        simp at hm
        subst hm
        refine Or.inr ⟨⟨⟨.CANVAS, st.currentPrompt, st.finalResponseText⟩, by simp, rfl⟩, ?_⟩
        intro t ht
        injection ht with ht
        subst ht
        simp [mkMsg]
    case PROJECT =>
      revert hr
      cases hR : env.projectCall <;> dsimp only <;> intro hr
      case error e => simp at hr
      case ok rtext =>
        simp only [Except.ok.injEq] at hr
        subst hr
        simp at hm
        subst hm
        refine Or.inl ?_
        simp only [mkMsg, String.data_append]
        exact List.prefix_append _ _
    case STUDY =>
      revert hr
      cases hR : runRetry env.studyCall <;> dsimp only <;> intro hr
      case error e => simp at hr
      case ok chunks =>
        simp only [Except.ok.injEq] at hr
        subst hr
        simp at hm
        subst hm
        exact Or.inl (by simpa [mkMsg] using foldText_pre chunks st.finalResponseText)
    case SIMPLE =>
      revert hr
      cases hR : runRetry env.simpleCall <;> dsimp only <;> intro hr
      case error e => simp at hr
      case ok chunks =>
        revert hr
        cases hD : detectRedirect (chunks.foldl foldSimpleChunk
            ("", st.finalResponseText, st.grounding)).1 inp.prompt <;> dsimp only <;> intro hr
        case none =>
          simp only [Except.ok.injEq] at hr
          subst hr
          simp at hm
          subst hm
          exact Or.inl (by simpa [mkMsg] using
            foldSimple_text_pre chunks ("", st.finalResponseText, st.grounding))
        case some act =>
          rcases ih _ r m hr hm with hpre | hcanvas
          · exact Or.inl (List.IsPrefix.trans
              (foldSimple_text_pre chunks ("", st.finalResponseText, st.grounding)) hpre)
          · exact Or.inr ⟨⟨hcanvas.1.choose, List.mem_cons_of_mem _ hcanvas.1.choose_spec.1,
              hcanvas.1.choose_spec.2⟩, hcanvas.2⟩

theorem loopRun_result_shape (inp : AgentInput) (env : AgentEnv) :
    ∀ fuel st r, (loopRun inp env fuel st).result = .ok r →
      ∃ text img gm, r = ⟨[mkMsg inp text img gm]⟩ := by
  intro fuel
  induction fuel with
  | zero =>
    intro st r hr
    simp only [loopRun] at hr
    simp only [Except.ok.injEq] at hr
    subst hr
    exact ⟨_, _, _, rfl⟩
  | succ f ih =>
    intro st r hr
    simp only [loopRun] at hr
    split at hr <;> (try split at hr) <;> (try split at hr) <;>
      first
        | (dsimp only at hr; simp only [Except.ok.injEq] at hr; subst hr;
           exact ⟨_, _, _, rfl⟩)
        | exact ih _ r hr
        | simp at hr

/-! ## Claim C3 -/

/-- C3 (corrected claim): within a single turn the per-iteration
accumulated texts form a prefix chain, and every handler's terminal message
extends the text accumulated at its entry — except the CANVAS handler,
which replaces the accumulated text with the canvas collaborator's returned
text (line 181 `finalResponseText = canvasMessage.text`). -/
theorem C3_append_only_except_canvas (inp : AgentInput) (env : AgentEnv)
    (fuel : Nat) (st : LoopSt) :
    List.Chain' (fun a b => a.text.data <+: b.text.data) (loopRun inp env fuel st).trace
    ∧ (∀ r m, (loopRun inp env fuel st).result = .ok r → m ∈ r.messages →
        st.finalResponseText.data <+: m.text.data
        ∨ ((∃ e ∈ (loopRun inp env fuel st).trace, e.action = .CANVAS)
            ∧ ∀ t, env.canvasCall = .ok t → m.text = t.getD "")) :=
  ⟨loopRun_chain inp env fuel st,
   fun r m hr hm => loopRun_final_text inp env fuel st r m hr hm⟩

/-- C3 counterexample: a SIMPLE iteration accumulates
`Hello<CANVAS>make app</CANVAS>` and redirects to CANVAS, whose result
(`CODE`) is the final text; the previously accumulated text is not a prefix
of it — the claim that every handler including CANVAS only appends is
false on the code. -/
theorem C3_counterexample :
    (runAgentCoreT inpX env3).result = .ok ⟨[mkMsg inpX "CODE" none none]⟩
    ∧ (runAgentCoreT inpX env3).trace.map TraceEntry.text
        = ["", "Hello<CANVAS>make app</CANVAS>"]
    ∧ ¬ ("Hello<CANVAS>make app</CANVAS>".data <+: "CODE".data) :=
  ⟨by decide, by decide, by decide⟩

/-- C3 witness: the corrected claim applied to the CANVAS-redirect run. -/
theorem C3_witness :
    "".data <+: (mkMsg inpX "CODE" none none).text.data
    ∨ ((∃ e ∈ (loopRun inpX env3 MAX_LOOPS
          ⟨"", none, .SIMPLE, "hi there", none⟩).trace, e.action = .CANVAS)
        ∧ ∀ t, env3.canvasCall = .ok t → (mkMsg inpX "CODE" none none).text = t.getD "") :=
  (C3_append_only_except_canvas inpX env3 MAX_LOOPS
      ⟨"", none, .SIMPLE, "hi there", none⟩).2
    ⟨[mkMsg inpX "CODE" none none]⟩ (mkMsg inpX "CODE" none none)
    (by decide) (by simp)

/-! ## Claim C6 -/

/-- C6: every error escaping the orchestration loop is caught once at the
top level (lines 290-294) and turned into a single `ai` message whose text
is the literal prefix `An error occurred: ` followed by the translated
message; the entry point returns this result instead of raising. -/
theorem C6_top_level_catch (friendly : GError → String) (inp : AgentInput)
    (env : AgentEnv) (e : GError)
    (he : (runAgentCoreT inp env).result = .error e) :
    runAutonomousAgent friendly inp env =
      ⟨[{ project_id := inp.projectId, chat_id := inp.chatId, sender := "ai",
          text := "An error occurred: " ++ friendly e,
          image_base64 := none, groundingMetadata := none }]⟩
    ∧ "An error occurred: ".data <+: ("An error occurred: " ++ friendly e).data := by
  constructor
  · unfold runAutonomousAgent
    rw [he]
  · rw [String.data_append]
    exact List.prefix_append _ _

/-- C6 witness: the router fails with a non-quota error; the turn still
returns a single degraded message with the documented prefix. -/
theorem C6_witness :
    runAutonomousAgent friendlyX inpX env6 =
      ⟨[{ project_id := inpX.projectId, chat_id := inpX.chatId, sender := "ai",
          text := "An error occurred: " ++ friendlyX ⟨some 500, some "backend down"⟩,
          image_base64 := none, groundingMetadata := none }]⟩
    ∧ "An error occurred: ".data <+:
        ("An error occurred: " ++ friendlyX ⟨some 500, some "backend down"⟩).data :=
  C6_top_level_catch friendlyX inpX env6 ⟨some 500, some "backend down"⟩ (by decide)

/-! ## Claim C8 -/

/-- C8: a turn routed directly to IMAGE with a non-empty parameter prompt.
On generator success the single message carries the image payload and the
empty accumulated text (no failure note); on `Error("rate limited")` the
failure is recovered locally (lines 165-170): the text carries the literal
failure note, no image payload is attached, and the turn completes with an
ordinary result. -/
theorem C8_image_paths (friendly : GError → String) (inp : AgentInput)
    (env : AgentEnv) (p : String) (stv : Option Nat)
    (hroute : env.route = .ok (.IMAGE, some p)) (hmem : env.memory = .ok ())
    (hp : p ≠ "") :
    (∀ b, env.generateImage p = .ok b →
        runAutonomousAgent friendly inp env = ⟨[mkMsg inp "" (some b) none]⟩
        ∧ ¬ ("(Image generation failed:".data <:+: ("" : String).data))
    ∧ (env.generateImage p = .error ⟨stv, some "rate limited"⟩ →
        runAutonomousAgent friendly inp env =
          ⟨[mkMsg inp "\n\n(Image generation failed: rate limited)" none none]⟩
        ∧ "(Image generation failed: rate limited)".data <:+:
            "\n\n(Image generation failed: rate limited)".data) := by
  have hbase : ∀ res, env.generateImage p = res →
      (runAgentCoreT inp env).result =
        (match res with
         | .ok b => .ok ⟨[mkMsg inp "" (some b) none]⟩
         | .error e => .ok ⟨[mkMsg inp
             ("" ++ ("\n\n(Image generation failed: " ++ (e.message.getD "Unknown error") ++ ")"))
             none none]⟩) := by
    intro res hres
    unfold runAgentCoreT
    rw [hroute, hmem]
    simp only [MAX_LOOPS, loopRun]
    rw [if_neg hp, hres]
    cases res <;> rfl
  constructor
  · intro b hb
    constructor
    · unfold runAutonomousAgent
      rw [hbase (.ok b) hb]
    · decide
  · intro herr
    constructor
    · unfold runAutonomousAgent
      rw [hbase _ herr]
      rfl
    · decide

/-- C8 witness: both branches exercised on concrete IMAGE environments. -/
theorem C8_witness :
    runAutonomousAgent friendlyX inpX env8ok = ⟨[mkMsg inpX "" (some "IMG") none]⟩
    ∧ runAutonomousAgent friendlyX inpX env8err =
        ⟨[mkMsg inpX "\n\n(Image generation failed: rate limited)" none none]⟩ :=
  ⟨((C8_image_paths friendlyX inpX env8ok "a cat" none rfl rfl (by decide)).1 "IMG" rfl).1,
   ((C8_image_paths friendlyX inpX env8err "a cat" none rfl rfl (by decide)).2 rfl).1⟩

/-! ## Claim C10 -/

/-- C10: every message of the result returned by the entry point — on every
handler's success path, on the budget fall-through path and on the
top-level error path — has sender `ai` and carries the submitted turn's
project and chat identifiers. -/
theorem C10_message_identity (friendly : GError → String) (inp : AgentInput)
    (env : AgentEnv) (m : Message)
    (hm : m ∈ (runAutonomousAgent friendly inp env).messages) :
    m.sender = "ai" ∧ m.project_id = inp.projectId ∧ m.chat_id = inp.chatId := by
  revert hm
  unfold runAutonomousAgent
  cases hres : (runAgentCoreT inp env).result with
  | error e =>
    intro hm
    simp at hm
    subst hm
    exact ⟨rfl, rfl, rfl⟩
  | ok r =>
    intro hm
    revert hres
    unfold runAgentCoreT
    cases hroute : env.route with
    | error e => intro hres; simp at hres
    | ok routing =>
      cases hmem : env.memory with
      | error e => intro hres; simp at hres
      | ok u =>
        intro hres
        obtain ⟨text, img, gm, rfl⟩ := loopRun_result_shape inp env MAX_LOOPS _ r hres
        simp at hm
        subst hm
        exact ⟨rfl, rfl, rfl⟩

/-- C10 witness: the identity fields on a concrete benign run. -/
theorem C10_witness :
    (mkMsg inpX "" none none).sender = "ai"
    ∧ (mkMsg inpX "" none none).project_id = inpX.projectId
    ∧ (mkMsg inpX "" none none).chat_id = inpX.chatId :=
  C10_message_identity friendlyX inpX baseEnv (mkMsg inpX "" none none) (by decide)

/-! ## Claim C4 -/

/-- C4 counterexample: a whitespace-only THINK payload is truthy in JS, so
line 277 trims it and redirects with the empty string, not with the
original prompt `hello` as the claim states. -/
theorem C4_counterexample :
    detectRedirect "<THINK>   </THINK>" "hello" = some (.THINK, "")
    ∧ ("" : String) ≠ "hello" :=
  ⟨by decide, by decide⟩

/-- C4 (corrected claim): a THINK marker with an empty payload
(`<THINK></THINK>`) or an unterminated `<THINK>` redirects to THINK using
the turn's original top-level prompt; a whitespace-only payload, however,
is truthy, gets trimmed (line 277) and the empty string becomes the next
prompt. -/
theorem C4_think_payload (p : String) :
    detectRedirect "<THINK></THINK>" p = some (.THINK, p)
    ∧ detectRedirect "<THINK>" p = some (.THINK, p)
    ∧ detectRedirect "<THINK>   </THINK>" p = some (.THINK, "")
    ∧ (∀ pay : String, pay ≠ "" → pay.data.all jsWs = true →
        thinkPrompt (some pay) p = "") := by
  refine ⟨rfl, rfl, rfl, ?_⟩
  intro pay hne hws
  simp only [thinkPrompt]
  rw [if_neg hne]
  unfold trimS trimChars
  have h1 : pay.data.dropWhile jsWs = [] :=
    List.dropWhile_eq_nil_iff.mpr (fun x hx => (List.all_eq_true.mp hws) x hx)
  rw [h1]
  rfl

/-- C4 witness: the corrected claim at the concrete prompt `hello` and the
whitespace-only payload. -/
theorem C4_witness :
    detectRedirect "<THINK></THINK>" "hello" = some (.THINK, "hello")
    ∧ detectRedirect "<THINK>" "hello" = some (.THINK, "hello")
    ∧ detectRedirect "<THINK>   </THINK>" "hello" = some (.THINK, "")
    ∧ thinkPrompt (some "   ") "hello" = "" :=
  ⟨(C4_think_payload "hello").1, (C4_think_payload "hello").2.1,
   (C4_think_payload "hello").2.2.1,
   (C4_think_payload "hello").2.2.2 "   " (by decide) (by decide)⟩

/-! ## Claim C5 -/

/-- C5: redirect detection checks the markers in the fixed order
DEEP_SEARCH, SEARCH, THINK, IMAGE, PROJECT, CANVAS, STUDY (lines 275-281);
the first successful match wins, at most one redirect is produced per
iteration, and the matched payload becomes the next prompt.  Text with both
a DEEP and a SEARCH marker redirects to DEEP_SEARCH, and a SIMPLE iteration
generating `<SEARCH>weather in Tokyo</SEARCH>` transitions to SEARCH with
prompt `weather in Tokyo`, consuming one of the two loop iterations. -/
theorem C5_detection_priority :
    (∀ g p d, deepMatch g = some d →
        detectRedirect g p = some (.DEEP_SEARCH, d))
    ∧ (∀ g p s, deepMatch g = none → searchMatch g = some s →
        detectRedirect g p = some (.SEARCH, s))
    ∧ (∀ g p c, deepMatch g = none → searchMatch g = none →
        thinkMatch g = some c → detectRedirect g p = some (.THINK, thinkPrompt c p))
    ∧ (∀ g p i, deepMatch g = none → searchMatch g = none → thinkMatch g = none →
        imageMatch g = some i → detectRedirect g p = some (.IMAGE, i))
    ∧ (∀ g p pr, deepMatch g = none → searchMatch g = none → thinkMatch g = none →
        imageMatch g = none → projectMatch g = some pr →
        detectRedirect g p = some (.PROJECT, pr))
    ∧ (∀ g p c, deepMatch g = none → searchMatch g = none → thinkMatch g = none →
        imageMatch g = none → projectMatch g = none → canvasMatch g = some c →
        detectRedirect g p = some (.CANVAS, c))
    ∧ (∀ g p st, deepMatch g = none → searchMatch g = none → thinkMatch g = none →
        imageMatch g = none → projectMatch g = none → canvasMatch g = none →
        studyMatch g = some st → detectRedirect g p = some (.STUDY, st))
    ∧ (∀ g p, deepMatch g = none → searchMatch g = none → thinkMatch g = none →
        imageMatch g = none → projectMatch g = none → canvasMatch g = none →
        studyMatch g = none → detectRedirect g p = none)
    ∧ detectRedirect "<DEEP>a</DEEP> and <SEARCH>b</SEARCH>" "orig"
        = some (.DEEP_SEARCH, "a")
    ∧ (runAgentCoreT inpX env5).trace.map (fun e => (e.action, e.prompt))
        = [(.SIMPLE, "hi there"), (.SEARCH, "weather in Tokyo")]
    ∧ (runAgentCoreT inpX env5).iters = 2
    ∧ (runAgentCoreT inpX env5).result = .ok ⟨[mkMsg inpX
        "Let me check<SEARCH>weather in Tokyo</SEARCH>Sunny" none (some ["src1"])]⟩ := by
  refine ⟨?_, ?_, ?_, ?_, ?_, ?_, ?_, ?_, by decide, by decide, by decide, by decide⟩
  · intro g p d hd
    simp [detectRedirect, hd]
  · intro g p s hd hs
    simp [detectRedirect, hd, hs]
  · intro g p c hd hs ht
    simp [detectRedirect, hd, hs, ht]
  · intro g p i hd hs ht hi
    simp [detectRedirect, hd, hs, ht, hi]
  · intro g p pr hd hs ht hi hp
    simp [detectRedirect, hd, hs, ht, hi, hp]
  · intro g p c hd hs ht hi hp hc
    simp [detectRedirect, hd, hs, ht, hi, hp, hc]
  · intro g p st hd hs ht hi hp hc hst
    simp [detectRedirect, hd, hs, ht, hi, hp, hc, hst]
  · intro g p hd hs ht hi hp hc hst
    simp [detectRedirect, hd, hs, ht, hi, hp, hc, hst]

/-- C5 witness: the priority chain applied at concrete marker texts. -/
theorem C5_witness :
    detectRedirect "<DEEP>x</DEEP>" "q" = some (.DEEP_SEARCH, "x")
    ∧ detectRedirect "see <SEARCH>tokyo</SEARCH>" "q" = some (.SEARCH, "tokyo")
    ∧ detectRedirect "no markers here" "q" = none :=
  ⟨C5_detection_priority.1 _ "q" "x" (by decide),
   C5_detection_priority.2.1 _ "q" "tokyo" (by decide) (by decide),
   C5_detection_priority.2.2.2.2.2.2.2.1 _ "q" (by decide) (by decide) (by decide)
     (by decide) (by decide) (by decide) (by decide)⟩

/-! ## Claim C9 -/

/-- C9 (corrected claim): grounding entries are concatenated in
chunk-arrival order, never deduplicated, reordered or overwritten; in the
SEARCH handler every chunk's entries are appended, but in the SIMPLE
handler the grounding check sits inside the truthy-text branch (lines
252-263), so only chunks with non-empty text contribute their entries. -/
theorem C9_grounding_order (chunks : List Chunk) (a0 t0 : String)
    (g0 : Option (List String)) :
    ((chunks.foldl foldSearchChunk (t0, g0)).2).getD []
        = g0.getD [] ++ (chunks.map groundOf).flatten
    ∧ ((chunks.foldl foldSimpleChunk (a0, t0, g0)).2.2).getD []
        = g0.getD [] ++ ((chunks.filter chunkTextTruthy).map groundOf).flatten :=
  ⟨foldSearch_grounding chunks (t0, g0), foldSimple_grounding chunks (a0, t0, g0)⟩

/-- C9 counterexample: the same textless grounding-bearing chunk is kept by
the SEARCH handler but dropped by the SIMPLE handler, so the claim that
both handlers append every chunk's entries is false on the code. -/
theorem C9_counterexample :
    runAutonomousAgent friendlyX inpX env9s = ⟨[mkMsg inpX "" none (some ["g1"])]⟩
    ∧ runAutonomousAgent friendlyX inpX env9p = ⟨[mkMsg inpX "" none none]⟩
    ∧ (none : Option (List String)) ≠ some ["g1"] :=
  ⟨by decide, by decide, by decide⟩

/-! ## Display-time extraction lemmas -/

theorem stripClosed_id (openT closeT : List Char) :
    ∀ cs fuel, ciContains openT cs = false →
      stripClosed openT closeT fuel cs = cs := by
  intro cs
  induction cs with
  | nil => intro fuel h; cases fuel <;> rfl
  | cons c rest ih =>
    intro fuel h
    unfold ciContains at h
    rw [Bool.or_eq_false_iff] at h
    cases fuel with
    | zero => rfl
    | succ f =>
      unfold stripClosed
      simp only [h.1, Bool.false_eq_true, if_false]
      rw [ih f h.2]

theorem stripOpenTag_id (openT : List Char) :
    ∀ cs, ciContains openT cs = false → stripOpenTag openT cs = cs := by
  intro cs
  induction cs with
  | nil => intro h; rfl
  | cons c rest ih =>
    intro h
    unfold ciContains at h
    rw [Bool.or_eq_false_iff] at h
    unfold stripOpenTag
    simp only [h.1, Bool.false_eq_true, if_false]
    rw [ih h.2]

theorem dropWhile_head_false {α : Type} (p : α → Bool) (l : List α) :
    ∀ x, (l.dropWhile p).head? = some x → p x = false := by
  induction l with
  | nil => intro x hx; simp at hx
  | cons a rest ih =>
    intro x hx
    rw [List.dropWhile_cons] at hx
    by_cases hp : p a = true
    · rw [if_pos hp] at hx
      exact ih x hx
    · rw [if_neg hp] at hx
      simp at hx
      subst hx
      simpa using hp

theorem dropWhile_of_head {α : Type} (p : α → Bool) (l : List α)
    (h : ∀ x, l.head? = some x → p x = false) : l.dropWhile p = l := by
  cases l with
  | nil => rfl
  | cons a rest =>
    rw [List.dropWhile_cons, if_neg]
    simp [h a rfl]

theorem dropWhile_idem {α : Type} (p : α → Bool) (l : List α) :
    (l.dropWhile p).dropWhile p = l.dropWhile p :=
  dropWhile_of_head p _ (fun x hx => dropWhile_head_false p l x hx)

theorem trim_idem (cs : List Char) : trimChars (trimChars cs) = trimChars cs := by
  unfold trimChars
  set A := cs.dropWhile jsWs with hA
  set B := A.reverse.dropWhile jsWs with hB
  have h1 : B.reverse.dropWhile jsWs = B.reverse := by
    apply dropWhile_of_head
    intro x hx
    have hsuf : B <:+ A.reverse := by rw [hB]; exact List.dropWhile_suffix _
    have hpre : B.reverse <+: A := by
      have h2 := List.reverse_prefix.mpr hsuf
      simpa using h2
    rcases hpre with ⟨t, ht⟩
    have hxA : A.head? = some x := by
      rw [← ht]
      cases hB' : B.reverse with
      | nil => rw [hB'] at hx; simp at hx
      | cons y ys =>
        rw [hB'] at hx
        simp at hx
        subst hx
        simp
    rw [hA] at hxA
    exact dropWhile_head_false jsWs cs x hxA
  rw [h1, List.reverse_reverse]
  have h2 : B.dropWhile jsWs = B := by
    rw [hB]
    exact dropWhile_idem _ _
  rw [h2]

theorem parse_clean_of_ne (t : String) (ht : t ≠ "") :
    (parseMessageContent t).clean = ⟨cleanText t.data⟩ := by
  unfold parseMessageContent
  rw [if_neg ht]

/-! ## Claim C7 -/

/-- C7 counterexample: removing the DEEP marker of
`<TH<DEEP>a</DEEP>INK>hello` splices the surrounding text into a THINK
marker, so the clean output is `<THINK>hello` — and cleaning it again
removes everything.  Display-time extraction is therefore not idempotent on
its own clean output. -/
theorem C7_counterexample :
    (parseMessageContent spliceInput).clean = "<THINK>hello"
    ∧ (parseMessageContent (parseMessageContent spliceInput).clean).clean = ""
    ∧ (parseMessageContent (parseMessageContent spliceInput).clean).clean
        ≠ (parseMessageContent spliceInput).clean :=
  ⟨by decide, by decide, by decide⟩

/-- C7 (corrected claim): display-time extraction is idempotent on every
clean output that carries no residual marker token; in general, sequential
tag removal can splice surrounding characters into a new marker of an
earlier replacement stage, and such residue is removed by a second pass. -/
theorem C7_clean_idempotent (s : String)
    (h : noMarkerTokens (parseMessageContent s).clean = true) :
    (parseMessageContent (parseMessageContent s).clean).clean
      = (parseMessageContent s).clean := by
  by_cases hc : (parseMessageContent s).clean = ""
  · rw [hc]
    rfl
  · have hs : s ≠ "" := by
      intro h0
      rw [h0] at hc
      exact hc rfl
    obtain ⟨⟨⟨⟨⟨⟨⟨hTH, hCA⟩, hME⟩, hIM⟩, hSE⟩, hPR⟩, hST⟩, hDE⟩ :
        (((((((ciContains "<THINK>".data (parseMessageContent s).clean.data = false
          ∧ ciContains "<CANVAS>".data (parseMessageContent s).clean.data = false)
          ∧ ciContains "<MEMORY>".data (parseMessageContent s).clean.data = false)
          ∧ ciContains "<IMAGE>".data (parseMessageContent s).clean.data = false)
          ∧ ciContains "<SEARCH>".data (parseMessageContent s).clean.data = false)
          ∧ ciContains "<PROJECT>".data (parseMessageContent s).clean.data = false)
          ∧ ciContains "<STUDY>".data (parseMessageContent s).clean.data = false)
          ∧ ciContains "<DEEP>".data (parseMessageContent s).clean.data = false) := by
      have h' := h
      unfold noMarkerTokens at h'
      rw [Bool.not_eq_eq_eq_not, Bool.not_true] at h'
      simpa [Bool.or_eq_false_iff, and_assoc] using h'
    have hstages : cleanText (parseMessageContent s).clean.data
        = trimChars (parseMessageContent s).clean.data := by
      unfold cleanText stripClosedS stripOpenTagS
      rw [stripClosed_id _ _ _ _ hTH, stripOpenTag_id _ _ hTH,
        stripClosed_id _ _ _ _ hCA, stripOpenTag_id _ _ hCA,
        stripClosed_id _ _ _ _ hME, stripClosed_id _ _ _ _ hIM,
        stripClosed_id _ _ _ _ hSE, stripClosed_id _ _ _ _ hPR,
        stripClosed_id _ _ _ _ hST, stripClosed_id _ _ _ _ hDE]
    have hfirst : (parseMessageContent s).clean.data = cleanText s.data := by
      unfold parseMessageContent
      rw [if_neg hs]
    have htrim : trimChars (parseMessageContent s).clean.data
        = (parseMessageContent s).clean.data := by
      rw [hfirst]
      unfold cleanText
      exact trim_idem _
    rw [parse_clean_of_ne _ hc, hstages, htrim]

/-- C7 witness: a clean output with no marker residue is a fixed point of
the extraction. -/
theorem C7_witness :
    noMarkerTokens (parseMessageContent "  hi <THINK>x</THINK> there ").clean = true
    ∧ (parseMessageContent
          (parseMessageContent "  hi <THINK>x</THINK> there ").clean).clean
        = (parseMessageContent "  hi <THINK>x</THINK> there ").clean :=
  ⟨by decide, C7_clean_idempotent "  hi <THINK>x</THINK> there " (by decide)⟩

end Bubble
